import Mathlib

/-!
Shallow embedding of `rclights.c` (RC car lights controller).

The C program reads a PWM pulse width, debounces it with a consensus
filter, quantizes it into one of 48 master light configurations via a
bit-packing scheme, and drives six light channels (front white, front
blue, left/right blinkers, stop, reverse) through idempotent turn
operations and a time-based blink state machine.

Modelling conventions:
* `uint8_t` / `uint32_t` arithmetic is `Nat` with explicit `% 2^8` /
  `% 2^32` where the C code can overflow.
* `float` pulse widths flow through the consensus filter only by exact
  equality comparison, so the filter is embedded generically over a type
  with decidable equality; the decoder's float arithmetic is embedded as
  exact rational arithmetic (`ℚ`), with the C float-to-`uint8_t`
  conversion modelled as floor (the C values of interest are
  nonnegative) reduced mod 256.
* each peripheral write (`pwm_set_gpio_level`) is logged as the written
  level, so side-effect counts are observable.
* `time_us_32()` is an external input: the current 32-bit time is passed
  as a parameter; the (at most two) reads within one application cycle
  are modelled as the same instant.
-/

namespace RCLights

/-- `enum LedState` of rclights.c. -/
inductive LedState
  | OFF
  | ON
  | HI
deriving DecidableEq

/-- `struct Led`, reduced to what the control logic reads and writes:
the current state, plus a log of peripheral level writes
(`pwm_set_gpio_level` calls), most recent first. -/
structure Led where
  state : LedState
  writes : List Nat
deriving DecidableEq

def OUTPUT_PWM_OFF_LEVEL : Nat := 0
def OUTPUT_PWM_ON_LEVEL : Nat := 20
def OUTPUT_PWM_HI_LEVEL : Nat := 100

def BLINK_INTERVAL_US : Nat := 400000

/-- Modulus of `uint32_t` arithmetic. -/
def U32 : Nat := 2 ^ 32

/-- `turn_led_off`: early-return when already `OFF`, otherwise one
peripheral write of the off level and the state becomes `OFF`. -/
def turn_led_off (led : Led) : Led :=
  if led.state = LedState.OFF then led
  else { state := LedState.OFF, writes := OUTPUT_PWM_OFF_LEVEL :: led.writes }

/-- `turn_led_on`: early-return when already `ON`, otherwise one
peripheral write of the on level and the state becomes `ON`. -/
def turn_led_on (led : Led) : Led :=
  if led.state = LedState.ON then led
  else { state := LedState.ON, writes := OUTPUT_PWM_ON_LEVEL :: led.writes }

/-- `turn_led_hi`: early-return when already `HI`, otherwise one
peripheral write of the hi level and the state becomes `HI`. -/
def turn_led_hi (led : Led) : Led :=
  if led.state = LedState.HI then led
  else { state := LedState.HI, writes := OUTPUT_PWM_HI_LEVEL :: led.writes }

/-- Dispatch from a target state to the corresponding turn operation
(`turn_led_off` / `turn_led_on` / `turn_led_hi`). -/
def turnTo : LedState → Led → Led
  | LedState.OFF => turn_led_off
  | LedState.ON => turn_led_on
  | LedState.HI => turn_led_hi

/-- The static locals of `blink_led`: deadline `next_us` (a `uint32_t`,
kept `< 2^32` by the wrapping update) and phase `blink_on`.  There is a
single instance shared by every call of `blink_led`. -/
structure BlinkTimer where
  next_us : Nat
  blink_on : Bool
deriving DecidableEq

/-- `blink_led`: at current time `curr_us` (the value of `time_us_32()`),
if `next_us < curr_us` then the deadline is rearmed to
`curr_us + BLINK_INTERVAL_US` (wrapping `uint32_t` addition) and the
phase flips.  With the phase on the led is turned on (the extra
`led->state = ON` in the C source is a no-op after `turn_led_on`);
with the phase off the led is turned off only if its state is `ON`. -/
def blink_led (curr_us : Nat) (t : BlinkTimer) (led : Led) : BlinkTimer × Led :=
  let t' := if t.next_us < curr_us then
      { next_us := (curr_us + BLINK_INTERVAL_US) % U32, blink_on := !t.blink_on }
    else t
  let led' := if t'.blink_on then turn_led_on led
    else if led.state = LedState.ON ∧ t'.blink_on = false then turn_led_off led
    else led
  (t', led')

/-- The six light channels owned by the rule engine. -/
structure Lights where
  front_white : Led
  front_blue : Led
  left_blinkers : Led
  right_blinkers : Led
  stop : Led
  reverse : Led
deriving DecidableEq

/-- Mutable state the rule engine touches: the six leds and the shared
static blink timer. -/
structure SysState where
  lights : Lights
  timer : BlinkTimer
deriving DecidableEq

/-- `apply_front_white_light_rules`: hi beams → HI; else day/night → ON;
else OFF.  C truth of a `uint8_t` field is `≠ 0`. -/
def apply_front_white_light_rules (day_night_config hi_beams_config : Nat)
    (led : Led) : Led :=
  if hi_beams_config ≠ 0 then turn_led_hi led
  else if day_night_config ≠ 0 then turn_led_on led
  else turn_led_off led

/-- `apply_blink_light_config`: the `switch` over the 2-bit blink field;
`0` turns both blinkers off, `1` blinks left and turns right off, `2`
turns left off and blinks right, any other value (hazard) blinks both.
Both `blink_led` calls share the single static timer, threaded through;
both reads of `time_us_32()` within the call are the instant `curr_us`. -/
def apply_blink_light_config (curr_us : Nat) (config : Nat) (t : BlinkTimer)
    (left right : Led) : BlinkTimer × Led × Led :=
  match config with
  | 0 => (t, turn_led_off left, turn_led_off right)
  | 1 =>
    let p := blink_led curr_us t left
    (p.1, p.2, turn_led_off right)
  | 2 =>
    let p := blink_led curr_us t right
    (p.1, turn_led_off left, p.2)
  | _ =>
    let p := blink_led curr_us t left
    let q := blink_led curr_us p.1 right
    (q.1, p.2, q.2)

/-- `apply_reverse_light_config`: reverse field set → ON, else OFF. -/
def apply_reverse_light_config (config : Nat) (led : Led) : Led :=
  if config ≠ 0 then turn_led_on led else turn_led_off led

/-- `apply_stop_light_rules`: brake → HI; else day/night → ON; else OFF. -/
def apply_stop_light_rules (day_night_config brake_light_config : Nat)
    (led : Led) : Led :=
  if brake_light_config ≠ 0 then turn_led_hi led
  else if day_night_config ≠ 0 then turn_led_on led
  else turn_led_off led

/-- `apply_master_lights_config`: unpack the five bit fields of the
configuration byte and apply the per-channel rules.  `front_blue` is
never touched. -/
def apply_master_lights_config (curr_us : Nat) (config : Nat)
    (s : SysState) : SysState :=
  let brake_light_config := config &&& 1
  let reverse_light_config := (config >>> 1) &&& 1
  let blink_light_config := (config >>> 2) &&& 3
  let hi_beams_config := (config >>> 4) &&& 1
  let day_night_config := (config >>> 5) &&& 1
  let stop' := apply_stop_light_rules day_night_config brake_light_config s.lights.stop
  let reverse' := apply_reverse_light_config reverse_light_config s.lights.reverse
  let b := apply_blink_light_config curr_us blink_light_config s.timer
      s.lights.left_blinkers s.lights.right_blinkers
  let front_white' := apply_front_white_light_rules day_night_config hi_beams_config
      s.lights.front_white
  { lights :=
      { front_white := front_white'
        front_blue := s.lights.front_blue
        left_blinkers := b.2.1
        right_blinkers := b.2.2
        stop := stop'
        reverse := reverse' }
    timer := b.1 }

/-- Run a sequence of control cycles: each cycle applies a configuration
byte at a clock value (`time_us_32()` reading). -/
def runApply (s : SysState) : List (Nat × Nat) → SysState
  | [] => s
  | c :: rest => runApply (apply_master_lights_config c.1 c.2 s) rest

/-- A fresh led with no writes logged, state `OFF` (the C initializers). -/
def initLed : Led := { state := LedState.OFF, writes := [] }

/-- State after `init_leds` and `turn_led_on(&FRONT_BLUE)` in `main`:
every channel `OFF` except front blue, blink timer zeroed. -/
def initSysState : SysState :=
  { lights :=
      { front_white := initLed
        front_blue := turn_led_on initLed
        left_blinkers := initLed
        right_blinkers := initLed
        stop := initLed
        reverse := initLed }
    timer := { next_us := 0, blink_on := false } }

/-- State with all six channels `OFF` (before `main` turns front blue on). -/
def allOffSysState : SysState :=
  { lights :=
      { front_white := initLed
        front_blue := initLed
        left_blinkers := initLed
        right_blinkers := initLed
        stop := initLed
        reverse := initLed }
    timer := { next_us := 0, blink_on := false } }

-- ********************************************************************************
-- Conversion of input PWM to master light configuration

def INPUT_PWM_US_RANGE_MIN : ℚ := 1019
def INPUT_PWM_US_RANGE_MAX : ℚ := 1971
def INPUT_PWM_US_RANGE_SIZE : ℚ := INPUT_PWM_US_RANGE_MAX - INPUT_PWM_US_RANGE_MIN
def MASTER_LIGHT_CONFIGURATION_COUNT : ℚ := 48
def INPUT_PWM_US_BUCKET_SIZE : ℚ :=
  INPUT_PWM_US_RANGE_SIZE / (MASTER_LIGHT_CONFIGURATION_COUNT - 1)

/-- `input_pwm_hi_us_to_config_id`: the float expression
`(hi_us - RANGE_MIN + BUCKET_SIZE/2) / BUCKET_SIZE` converted to
`uint8_t`.  Float arithmetic is embedded as exact rational arithmetic;
the float-to-`uint8_t` conversion truncates toward zero, which for the
nonnegative values of interest is the floor, reduced mod 256 for the
8-bit width. -/
def input_pwm_hi_us_to_config_id (hi_us : ℚ) : Nat :=
  (⌊(hi_us - INPUT_PWM_US_RANGE_MIN + INPUT_PWM_US_BUCKET_SIZE / 2)
      / INPUT_PWM_US_BUCKET_SIZE⌋).toNat % 256

/-- The packing expression of `input_pwm_hi_us_to_master_lights_config`:
`(config_id % 3) + ((config_id / 3) << 2)`, truncated to `uint8_t`. -/
def pack_config_id (config_id : Nat) : Nat :=
  ((config_id % 3) + ((config_id / 3) <<< 2)) % 256

/-- `input_pwm_hi_us_to_master_lights_config`: decode the bucket id,
then pack it. -/
def input_pwm_hi_us_to_master_lights_config (hi_us : ℚ) : Nat :=
  pack_config_id (input_pwm_hi_us_to_config_id hi_us)

-- ********************************************************************************
-- Consensus smoothing filter

def INPUT_PWM_SMOOTH_SAMPLES : Nat := 4

/-- The static locals of `smooth_input_pwm_hi_us`: the stable output,
the ring-buffer cursor and the buffer of the last raw samples.  The
samples are floats compared only by exact equality, so the state is
generic over a type with decidable equality. -/
structure SmoothState (α : Type) where
  smooth_hi_us : α
  curr_sample : Nat
  samples : List α
deriving DecidableEq

/-- Zero-initialized filter state (`z` plays the role of `0.0f`). -/
def initSmoothState {α : Type} (z : α) : SmoothState α :=
  { smooth_hi_us := z
    curr_sample := 0
    samples := List.replicate INPUT_PWM_SMOOTH_SAMPLES z }

/-- One call of `smooth_input_pwm_hi_us` on raw sample `raw`: store the
sample at the cursor; if it differs from the stable value and all
buffered samples (the new one included) equal it, adopt it; advance the
cursor; return the (possibly updated) stable value. -/
def smooth_input_pwm_hi_us {α : Type} [DecidableEq α] (raw : α)
    (s : SmoothState α) : α × SmoothState α :=
  let samples := s.samples.set s.curr_sample raw
  let smooth :=
    if raw ≠ s.smooth_hi_us then
      if samples.all (fun x => x = raw) then raw else s.smooth_hi_us
    else s.smooth_hi_us
  (smooth,
    { smooth_hi_us := smooth
      curr_sample := (s.curr_sample + 1) % INPUT_PWM_SMOOTH_SAMPLES
      samples := samples })

/-- Feed a list of raw samples through the filter. -/
def runSmooth {α : Type} [DecidableEq α] (s : SmoothState α) :
    List α → SmoothState α
  | [] => s
  | r :: rs => runSmooth (smooth_input_pwm_hi_us r s).2 rs

/-- Well-formedness of the filter state as established by the C statics:
the buffer has `INPUT_PWM_SMOOTH_SAMPLES` slots and the cursor is in
range. -/
def SmoothWF {α : Type} (s : SmoothState α) : Prop :=
  s.samples.length = INPUT_PWM_SMOOTH_SAMPLES ∧
    s.curr_sample < INPUT_PWM_SMOOTH_SAMPLES

-- ********************************************************************************
-- Helper lemmas about the turn operations and the blink state machine

/-- A turn to off always lands in state `OFF`. -/
theorem turn_led_off_state (l : Led) : (turn_led_off l).state = LedState.OFF := by
  unfold turn_led_off; split <;> simp_all

/-- A turn to on always lands in state `ON`. -/
theorem turn_led_on_state (l : Led) : (turn_led_on l).state = LedState.ON := by
  unfold turn_led_on; split <;> simp_all

/-- A turn to hi always lands in state `HI`. -/
theorem turn_led_hi_state (l : Led) : (turn_led_hi l).state = LedState.HI := by
  unfold turn_led_hi; split <;> simp_all

/-- `blink_led` leaves the led either turned on, turned off, or untouched. -/
theorem blink_led_cases (curr_us : Nat) (t : BlinkTimer) (l : Led) :
    (blink_led curr_us t l).2 = turn_led_on l ∨
    (blink_led curr_us t l).2 = turn_led_off l ∨
    (blink_led curr_us t l).2 = l := by
  unfold blink_led
  set t' := if t.next_us < curr_us then
      { next_us := (curr_us + BLINK_INTERVAL_US) % U32,
        blink_on := !t.blink_on } else t with ht'
  by_cases hb : t'.blink_on
  · left; simp [hb]
  · by_cases hs : l.state = LedState.ON ∧ t'.blink_on = false
    · right; left; simp [hb, hs]
    · right; right
      have hs' : ¬ l.state = LedState.ON := fun h => hs ⟨h, by simpa using hb⟩
      simp [hb, hs']

/-- `blink_led` never drives a non-`HI` blinker into state `HI`. -/
theorem blink_led_state_ne_hi (curr_us : Nat) (t : BlinkTimer) (l : Led)
    (h : l.state ≠ LedState.HI) : (blink_led curr_us t l).2.state ≠ LedState.HI := by
  rcases blink_led_cases curr_us t l with hc | hc | hc <;>
    rw [hc] <;> simp [turn_led_on_state, turn_led_off_state, h]

/-- Every arm of the blink `switch` keeps both blinker channels out of
state `HI`. -/
theorem apply_blink_preserves (curr_us cfg : Nat) (t : BlinkTimer) (l r : Led)
    (hl : l.state ≠ LedState.HI) (hr : r.state ≠ LedState.HI) :
    (apply_blink_light_config curr_us cfg t l r).2.1.state ≠ LedState.HI ∧
    (apply_blink_light_config curr_us cfg t l r).2.2.state ≠ LedState.HI := by
  match cfg with
  | 0 => exact ⟨by simp [apply_blink_light_config, turn_led_off_state],
      by simp [apply_blink_light_config, turn_led_off_state]⟩
  | 1 => exact ⟨blink_led_state_ne_hi _ _ _ hl,
      by simp [apply_blink_light_config, turn_led_off_state]⟩
  | 2 => exact ⟨by simp [apply_blink_light_config, turn_led_off_state],
      blink_led_state_ne_hi _ _ _ hr⟩
  | (n + 3) => exact ⟨blink_led_state_ne_hi _ _ _ hl, blink_led_state_ne_hi _ _ _ hr⟩

/-- After one `blink_led` call the led is in state `ON` exactly when the
updated timer phase is on. -/
theorem blink_led_on_iff (curr_us : Nat) (t : BlinkTimer) (led : Led) :
    ((blink_led curr_us t led).2.state = LedState.ON ↔
      (blink_led curr_us t led).1.blink_on = true) := by
  unfold blink_led
  by_cases hb : (if t.next_us < curr_us then
      { next_us := (curr_us + BLINK_INTERVAL_US) % U32,
        blink_on := !t.blink_on } else t : BlinkTimer).blink_on <;>
    simp only [hb, if_true, if_false, Bool.false_eq_true, iff_false, iff_true]
  · exact turn_led_on_state led
  · split <;> simp_all [turn_led_off_state]

/-- When the rearmed deadline does not wrap around `2^32`, a second
`blink_led` call at the same instant leaves the timer unchanged. -/
theorem blink_led_no_reflip (curr_us : Nat) (t : BlinkTimer) (led led' : Led)
    (h : curr_us + BLINK_INTERVAL_US < U32) :
    (blink_led curr_us (blink_led curr_us t led).1 led').1 =
      (blink_led curr_us t led).1 := by
  set u := (blink_led curr_us t led).1 with hu
  have hstep : ¬ u.next_us < curr_us := by
    rw [hu]
    unfold blink_led
    split
    · simp only [Nat.mod_eq_of_lt h, not_lt]
      exact Nat.le_add_right _ _
    · simp_all
  show (blink_led curr_us u led').1 = u
  unfold blink_led
  simp [hstep]

-- Helper lemmas about the consensus filter

/-- If a filter step changes the returned stable value then every entry
of the updated sample buffer equals the new raw sample. -/
theorem smooth_change_all {α : Type} [DecidableEq α] (r : α) (s : SmoothState α)
    (h : (smooth_input_pwm_hi_us r s).1 ≠ s.smooth_hi_us) :
    ∀ z ∈ s.samples.set s.curr_sample r, z = r := by
  unfold smooth_input_pwm_hi_us at h
  by_cases he : r = s.smooth_hi_us
  · simp [he] at h
  · simp only [ne_eq, he, not_false_iff, if_true, if_neg] at h
    intro z hz
    by_cases hall : (s.samples.set s.curr_sample r).all (fun x => x = r)
    · exact of_decide_eq_true (List.all_eq_true.mp hall z hz)
    · simp [hall] at h

/-- First filter step from the zero-initialized state: the buffer takes
the new sample in slot 0 and the stable value stays `z`. -/
theorem smooth_step_init {α : Type} [DecidableEq α] (z a : α) :
    (smooth_input_pwm_hi_us a (initSmoothState z)).2 =
      ⟨z, 1, [a, z, z, z]⟩ := by
  unfold smooth_input_pwm_hi_us initSmoothState
  by_cases ha : a = z
  · simp [ha, INPUT_PWM_SMOOTH_SAMPLES, List.set, List.replicate]
  · simp [ha, Ne.symm ha, INPUT_PWM_SMOOTH_SAMPLES, List.set, List.replicate]

/-- Second filter step from the zero-initialized state. -/
theorem smooth_step_two {α : Type} [DecidableEq α] (z a b : α) :
    (smooth_input_pwm_hi_us b (⟨z, 1, [a, z, z, z]⟩ : SmoothState α)).2 =
      ⟨z, 2, [a, b, z, z]⟩ := by
  unfold smooth_input_pwm_hi_us
  by_cases hb : b = z
  · simp [hb, INPUT_PWM_SMOOTH_SAMPLES, List.set]
  · simp [hb, Ne.symm hb, INPUT_PWM_SMOOTH_SAMPLES, List.set]

/-- Third filter step from the zero-initialized state. -/
theorem smooth_step_three {α : Type} [DecidableEq α] (z a b c : α) :
    (smooth_input_pwm_hi_us c (⟨z, 2, [a, b, z, z]⟩ : SmoothState α)).2 =
      ⟨z, 3, [a, b, c, z]⟩ := by
  unfold smooth_input_pwm_hi_us
  by_cases hc : c = z
  · simp [hc, INPUT_PWM_SMOOTH_SAMPLES, List.set]
  · simp [hc, Ne.symm hc, INPUT_PWM_SMOOTH_SAMPLES, List.set]

-- ********************************************************************************
-- Claim theorems

/-- C1: bit-packing round-trip — for every bucket id in `[0, 47]`,
unpacking the packed configuration the way the rule engine does
(low 2-bit field via `&&& 3`, bits 2 and up via `>>> 2`) recovers the
original id: `3 * (pack id >>> 2) + (pack id &&& 3) = id`. -/
theorem pack_unpack_roundtrip : ∀ id < 48,
    3 * (pack_config_id id >>> 2) + (pack_config_id id &&& 3) = id := by
  decide

/-- Witness for C1 at the top bucket id 47. -/
theorem pack_unpack_roundtrip_witness :
    47 < 48 ∧ 3 * (pack_config_id 47 >>> 2) + (pack_config_id 47 &&& 3) = 47 :=
  ⟨by decide, pack_unpack_roundtrip 47 (by decide)⟩

set_option maxRecDepth 4000 in
/-- C2: for every `uint8_t` bucket id the packing expression
`(id % 3) + ((id / 3) <<< 2)` coincides with the OR form
`(id % 3) ||| ((id / 3) <<< 2)` (the two fields never overlap), and for
ids in `[0, 47]` the low 2-bit reverse/brake field of the packed
configuration never takes the value 3. -/
theorem pack_or_form_and_low_field_ne_three : ∀ id < 256,
    pack_config_id id = ((id % 3) ||| ((id / 3) <<< 2)) % 256 ∧
      (id < 48 → pack_config_id id &&& 3 ≠ 3) := by
  decide

/-- Witness for C2 at id 47. -/
theorem pack_or_form_and_low_field_ne_three_witness :
    47 < 256 ∧ (pack_config_id 47 = ((47 % 3) ||| ((47 / 3) <<< 2)) % 256 ∧
      (47 < 48 → pack_config_id 47 &&& 3 ≠ 3)) :=
  ⟨by decide, pack_or_form_and_low_field_ne_three 47 (by decide)⟩

/-- C3: for every configuration byte, every clock value and every prior
state, applying the master configuration leaves front white `HI` when
bit 4 (high beam) is set, else `ON` when bit 5 (day/night) is set, else
`OFF`; leaves stop `HI` when bit 0 (brake) is set, else `ON` when bit 5
is set, else `OFF`; and leaves reverse `ON` exactly when bit 1
(reverse) is set, else `OFF`. -/
theorem apply_master_channel_rules (curr_us config : Nat) (s : SysState) :
    ((apply_master_lights_config curr_us config s).lights.front_white.state =
       (if (config >>> 4) &&& 1 = 1 then LedState.HI
        else if (config >>> 5) &&& 1 = 1 then LedState.ON else LedState.OFF)) ∧
    ((apply_master_lights_config curr_us config s).lights.stop.state =
       (if config &&& 1 = 1 then LedState.HI
        else if (config >>> 5) &&& 1 = 1 then LedState.ON else LedState.OFF)) ∧
    ((apply_master_lights_config curr_us config s).lights.reverse.state =
       (if (config >>> 1) &&& 1 = 1 then LedState.ON else LedState.OFF)) := by
  unfold apply_master_lights_config apply_front_white_light_rules
    apply_stop_light_rules apply_reverse_light_config
  have h4 : (config >>> 4) &&& 1 = 0 ∨ (config >>> 4) &&& 1 = 1 :=
    Nat.and_one_is_mod _ ▸ Nat.mod_two_eq_zero_or_one _
  have h5 : (config >>> 5) &&& 1 = 0 ∨ (config >>> 5) &&& 1 = 1 :=
    Nat.and_one_is_mod _ ▸ Nat.mod_two_eq_zero_or_one _
  have h0 : config &&& 1 = 0 ∨ config &&& 1 = 1 :=
    Nat.and_one_is_mod _ ▸ Nat.mod_two_eq_zero_or_one _
  have h1 : (config >>> 1) &&& 1 = 0 ∨ (config >>> 1) &&& 1 = 1 :=
    Nat.and_one_is_mod _ ▸ Nat.mod_two_eq_zero_or_one _
  rcases h4 with h4 | h4 <;> rcases h5 with h5 | h5 <;> rcases h0 with h0 | h0 <;>
    rcases h1 with h1 | h1 <;>
    simp [h4, h5, h0, h1, turn_led_off_state, turn_led_on_state, turn_led_hi_state]

/-- C4 counterexample: one hazard application at clock value
`2^32 - 1` from the initial timer drives the left blinker `ON` and the
right blinker `OFF` — the rearmed deadline wraps around `2^32`, the
shared timer flips a second time within the same apply call, and the
two channels end the cycle out of phase. -/
theorem hazard_out_of_phase_at_clock_wrap :
    (apply_blink_light_config 4294967295 3
        { next_us := 0, blink_on := false } initLed initLed).2.1.state = LedState.ON ∧
    (apply_blink_light_config 4294967295 3
        { next_us := 0, blink_on := false } initLed initLed).2.2.state = LedState.OFF := by
  decide

/-- C4 amended: whenever the rearmed deadline `now + BLINK_INTERVAL_US`
does not wrap around `2^32`, a hazard application (`blink = 3`) makes
both blinker channels observe the same blink-phase decision: the shared
timer is updated only by the first `blink_led` call, and each channel
ends in state `ON` exactly when that shared phase is on. -/
theorem hazard_synchrony_no_wrap (curr_us : Nat) (t : BlinkTimer) (l r : Led)
    (h : curr_us + BLINK_INTERVAL_US < U32) :
    (apply_blink_light_config curr_us 3 t l r).1 = (blink_led curr_us t l).1 ∧
    ((apply_blink_light_config curr_us 3 t l r).2.1.state = LedState.ON ↔
      (apply_blink_light_config curr_us 3 t l r).1.blink_on = true) ∧
    ((apply_blink_light_config curr_us 3 t l r).2.2.state = LedState.ON ↔
      (apply_blink_light_config curr_us 3 t l r).1.blink_on = true) := by
  have happ : apply_blink_light_config curr_us 3 t l r =
      ((blink_led curr_us (blink_led curr_us t l).1 r).1,
        (blink_led curr_us t l).2,
        (blink_led curr_us (blink_led curr_us t l).1 r).2) := rfl
  rw [happ, blink_led_no_reflip curr_us t l r h]
  refine ⟨rfl, blink_led_on_iff curr_us t l, ?_⟩
  have h2 := blink_led_on_iff curr_us (blink_led curr_us t l).1 r
  rwa [blink_led_no_reflip curr_us t l r h] at h2

/-- Witness for C4 amended at clock value 10 from the initial timer. -/
theorem hazard_synchrony_no_wrap_witness :
    10 + BLINK_INTERVAL_US < U32 ∧
    ((apply_blink_light_config 10 3 { next_us := 0, blink_on := false }
        initLed initLed).2.1.state = LedState.ON ↔
      (apply_blink_light_config 10 3 { next_us := 0, blink_on := false }
        initLed initLed).1.blink_on = true) :=
  ⟨by decide, (hazard_synchrony_no_wrap 10 { next_us := 0, blink_on := false }
    initLed initLed (by decide)).2.1⟩

/-- C5: consensus debounce — from any well-formed filter state, three
identical samples followed by one differing sample leave the stable
output unchanged; whenever a step changes the stable output, that
sample and the three before it are all equal to the new value (and from
the zero-initialized state no change at all is possible in the first
three steps); and the filter always returns the stable value of its
updated state, which is either the new sample or the previous stable
value. -/
theorem consensus_filter_spec (α : Type) [DecidableEq α] :
    (∀ s : SmoothState α, SmoothWF s → ∀ x d : α, d ≠ x →
        (runSmooth s [x, x, x, d]).smooth_hi_us =
          (runSmooth s [x, x, x]).smooth_hi_us) ∧
    (∀ s : SmoothState α, SmoothWF s → ∀ w x y r : α,
        (smooth_input_pwm_hi_us r (runSmooth s [w, x, y])).1 ≠
            (runSmooth s [w, x, y]).smooth_hi_us →
          w = r ∧ x = r ∧ y = r) ∧
    (∀ (z : α) (l : List α), l.length < INPUT_PWM_SMOOTH_SAMPLES →
        (runSmooth (initSmoothState z) l).smooth_hi_us = z) ∧
    (∀ (s : SmoothState α) (r : α),
        (smooth_input_pwm_hi_us r s).1 =
            (smooth_input_pwm_hi_us r s).2.smooth_hi_us ∧
          ((smooth_input_pwm_hi_us r s).1 = r ∨
            (smooth_input_pwm_hi_us r s).1 = s.smooth_hi_us)) := by
  refine ⟨?_, ?_, ?_, ?_⟩
  · intro s hwf x d hd
    obtain ⟨sm, k, samples⟩ := s
    obtain ⟨hlen, hk⟩ := hwf
    simp only [SmoothWF, INPUT_PWM_SMOOTH_SAMPLES] at hlen hk
    rcases samples with _ | ⟨a0, _ | ⟨a1, _ | ⟨a2, _ | ⟨a3, _ | _⟩⟩⟩⟩ <;> simp_all
    interval_cases k <;>
      simp [runSmooth, smooth_input_pwm_hi_us, INPUT_PWM_SMOOTH_SAMPLES, Ne.symm hd]
  · intro s hwf w x y r hch
    obtain ⟨sm, k, samples⟩ := s
    obtain ⟨hlen, hk⟩ := hwf
    simp only [SmoothWF, INPUT_PWM_SMOOTH_SAMPLES] at hlen hk
    rcases samples with _ | ⟨a0, _ | ⟨a1, _ | ⟨a2, _ | ⟨a3, _ | _⟩⟩⟩⟩ <;> simp_all
    have hall := smooth_change_all r _ hch
    interval_cases k <;>
      exact ⟨hall w (by simp [runSmooth, smooth_input_pwm_hi_us,
          INPUT_PWM_SMOOTH_SAMPLES, List.set]),
        hall x (by simp [runSmooth, smooth_input_pwm_hi_us,
          INPUT_PWM_SMOOTH_SAMPLES, List.set]),
        hall y (by simp [runSmooth, smooth_input_pwm_hi_us,
          INPUT_PWM_SMOOTH_SAMPLES, List.set])⟩
  · intro z l h
    rcases l with _ | ⟨a, _ | ⟨b, _ | ⟨c, _ | _⟩⟩⟩
    · rfl
    · show (runSmooth (smooth_input_pwm_hi_us a (initSmoothState z)).2
          []).smooth_hi_us = z
      rw [smooth_step_init]
      rfl
    · show (runSmooth (smooth_input_pwm_hi_us a (initSmoothState z)).2
          [b]).smooth_hi_us = z
      rw [smooth_step_init]
      show (runSmooth (smooth_input_pwm_hi_us b
          (⟨z, 1, [a, z, z, z]⟩ : SmoothState α)).2 []).smooth_hi_us = z
      rw [smooth_step_two]
      rfl
    · show (runSmooth (smooth_input_pwm_hi_us a (initSmoothState z)).2
          [b, c]).smooth_hi_us = z
      rw [smooth_step_init]
      show (runSmooth (smooth_input_pwm_hi_us b
          (⟨z, 1, [a, z, z, z]⟩ : SmoothState α)).2 [c]).smooth_hi_us = z
      rw [smooth_step_two]
      show (runSmooth (smooth_input_pwm_hi_us c
          (⟨z, 2, [a, b, z, z]⟩ : SmoothState α)).2 []).smooth_hi_us = z
      rw [smooth_step_three]
      rfl
    · simp [INPUT_PWM_SMOOTH_SAMPLES] at h
      omega
  · intro s r
    refine ⟨rfl, ?_⟩
    unfold smooth_input_pwm_hi_us
    by_cases h1 : r = s.smooth_hi_us
    · simp [h1]
    · by_cases h2 : (s.samples.set s.curr_sample r).all (fun x => x = r) <;>
        simp [h1, h2]

/-- Witness for C5: over the integers, three samples of 5 followed by a
differing 7 leave the zero-initialized stable output unchanged. -/
theorem consensus_filter_spec_witness :
    (runSmooth (initSmoothState (0 : Int)) [5, 5, 5, 7]).smooth_hi_us =
      (runSmooth (initSmoothState (0 : Int)) [5, 5, 5]).smooth_hi_us :=
  (consensus_filter_spec Int).1 (initSmoothState 0)
    (by exact ⟨by decide, by decide⟩) 5 7 (by decide)

/-- C6 counterexample: at a clock value exactly equal to the deadline
(`curr_us = next_us = 5`) the code does not toggle — the deadline and
phase are left unchanged — although the claim, which toggles on
"current time greater than or equal to nextToggle", demands a flip. -/
theorem blink_no_toggle_at_equal_deadline :
    (5 : Nat) ≥ 5 ∧
    (blink_led 5 { next_us := 5, blink_on := false } initLed).1 =
      { next_us := 5, blink_on := false } ∧
    ({ next_us := 5, blink_on := false } : BlinkTimer) ≠
      { next_us := (5 + BLINK_INTERVAL_US) % U32, blink_on := !false } := by
  decide

/-- C6 amended: on every `blink_led` invocation, if the current time is
strictly greater than `next_us` then `next_us` becomes
`now + BLINK_INTERVAL_US` (wrapping) and the phase flips, otherwise the
timer is unchanged; when the resulting phase is on the channel is
turned on, and when it is off the channel is turned off exactly when
its last state was `ON`, otherwise left untouched. -/
theorem blink_step_rule (curr_us : Nat) (t : BlinkTimer) (l : Led) :
    ((t.next_us < curr_us →
        (blink_led curr_us t l).1 =
          { next_us := (curr_us + BLINK_INTERVAL_US) % U32,
            blink_on := !t.blink_on }) ∧
      (¬ t.next_us < curr_us → (blink_led curr_us t l).1 = t)) ∧
    ((blink_led curr_us t l).1.blink_on = true →
      (blink_led curr_us t l).2 = turn_led_on l) ∧
    ((blink_led curr_us t l).1.blink_on = false →
      (l.state = LedState.ON → (blink_led curr_us t l).2 = turn_led_off l) ∧
      (l.state ≠ LedState.ON → (blink_led curr_us t l).2 = l)) := by
  unfold blink_led
  by_cases hlt : t.next_us < curr_us <;> simp [hlt] <;>
    by_cases hb : t.blink_on <;> simp [hb] <;>
    by_cases hs : l.state = LedState.ON <;> simp [hs]

/-- Witness for C6 amended: at time 6 with deadline 5 the timer rearms
to `6 + BLINK_INTERVAL_US` and the phase flips. -/
theorem blink_step_rule_witness :
    (5 : Nat) < 6 ∧
    (blink_led 6 { next_us := 5, blink_on := false } initLed).1 =
      { next_us := (6 + BLINK_INTERVAL_US) % U32, blink_on := !false } :=
  ⟨by decide, (blink_step_rule 6 { next_us := 5, blink_on := false }
    initLed).1.1 (by decide)⟩

/-- C7: the toggle comparison `next_us < curr_us` is not
wraparound-safe.  A flip at time `2^32 - BLINK_INTERVAL_US` rearms the
deadline to 0 (the addition wraps), so the very next call, one
microsecond later, flips the phase again — far sooner than
`BLINK_INTERVAL_US` microseconds after the previous flip. -/
theorem blink_timer_double_flip_at_wrap :
    (blink_led 4294567296 { next_us := 1, blink_on := false } initLed).1 =
      { next_us := 0, blink_on := true } ∧
    (blink_led 4294567297 { next_us := 0, blink_on := true } initLed).1.blink_on
      = false ∧
    4294567297 - 4294567296 < BLINK_INTERVAL_US := by
  decide

/-- C8 counterexample: calling the turn-off operation twice on a channel
that is already `OFF` performs zero peripheral writes, not exactly
one. -/
theorem turn_twice_already_target_zero_writes :
    (turn_led_off (turn_led_off { state := LedState.OFF, writes := [] })).writes.length
      ≠ 1 ∧
    (turn_led_off (turn_led_off { state := LedState.OFF, writes := [] })).writes
      = [] := by
  decide

/-- C8 amended: for every channel state and every target state `X`, the
turn operation is idempotent — the second of two consecutive calls
performs no peripheral write and leaves the channel unchanged — the
result is always in state `X`, the pair of calls performs exactly one
write when the channel was not already in `X`, and none when it was. -/
theorem turn_twice_at_most_one_write (X : LedState) (l : Led) :
    turnTo X (turnTo X l) = turnTo X l ∧
    (turnTo X l).state = X ∧
    (l.state ≠ X → (turnTo X l).writes.length = l.writes.length + 1) ∧
    (l.state = X → turnTo X l = l) := by
  cases X <;> cases l <;>
    simp [turnTo, turn_led_off, turn_led_on, turn_led_hi] <;>
    split <;> simp_all

/-- Witness for C8 amended: turning an `OFF` channel on twice yields one
write and a fixed point. -/
theorem turn_twice_at_most_one_write_witness :
    turnTo LedState.ON (turnTo LedState.ON initLed) = turnTo LedState.ON initLed ∧
    (turnTo LedState.ON initLed).writes.length = initLed.writes.length + 1 :=
  ⟨(turn_twice_at_most_one_write LedState.ON initLed).1,
    (turn_twice_at_most_one_write LedState.ON initLed).2.2.1 (by decide)⟩

/-- C9: concrete scenario — pulse width 1019 decodes to bucket id 0 and
configuration 0, and applying configuration 0 to the post-startup state
leaves every channel `OFF` except front blue (still `ON`); pulse width
1971 decodes to bucket id 47 and configuration 62, whose unpacked
fields are brake 0, reverse 1, blink 3 (hazard), high beam 1,
day/night 1. -/
theorem concrete_scenario_decode_apply :
    input_pwm_hi_us_to_config_id 1019 = 0 ∧
    input_pwm_hi_us_to_master_lights_config 1019 = 0 ∧
    input_pwm_hi_us_to_config_id 1971 = 47 ∧
    input_pwm_hi_us_to_master_lights_config 1971 = 62 ∧
    input_pwm_hi_us_to_master_lights_config 1971 &&& 1 = 0 ∧
    (input_pwm_hi_us_to_master_lights_config 1971 >>> 1) &&& 1 = 1 ∧
    (input_pwm_hi_us_to_master_lights_config 1971 >>> 2) &&& 3 = 3 ∧
    (input_pwm_hi_us_to_master_lights_config 1971 >>> 4) &&& 1 = 1 ∧
    (input_pwm_hi_us_to_master_lights_config 1971 >>> 5) &&& 1 = 1 ∧
    (∀ curr_us : Nat,
      (apply_master_lights_config curr_us 0 initSysState).lights.front_white.state
          = LedState.OFF ∧
      (apply_master_lights_config curr_us 0 initSysState).lights.front_blue.state
          = LedState.ON ∧
      (apply_master_lights_config curr_us 0 initSysState).lights.left_blinkers.state
          = LedState.OFF ∧
      (apply_master_lights_config curr_us 0 initSysState).lights.right_blinkers.state
          = LedState.OFF ∧
      (apply_master_lights_config curr_us 0 initSysState).lights.stop.state
          = LedState.OFF ∧
      (apply_master_lights_config curr_us 0 initSysState).lights.reverse.state
          = LedState.OFF) := by
  have hid0 : input_pwm_hi_us_to_config_id 1019 = 0 := by
    have h : (1019 - INPUT_PWM_US_RANGE_MIN + INPUT_PWM_US_BUCKET_SIZE / 2)
        / INPUT_PWM_US_BUCKET_SIZE = 1/2 := by
      norm_num [INPUT_PWM_US_RANGE_MIN, INPUT_PWM_US_BUCKET_SIZE,
        INPUT_PWM_US_RANGE_SIZE, INPUT_PWM_US_RANGE_MAX,
        MASTER_LIGHT_CONFIGURATION_COUNT]
    unfold input_pwm_hi_us_to_config_id
    rw [h]
    norm_num [Int.floor_eq_iff]
  have hid47 : input_pwm_hi_us_to_config_id 1971 = 47 := by
    have h : (1971 - INPUT_PWM_US_RANGE_MIN + INPUT_PWM_US_BUCKET_SIZE / 2)
        / INPUT_PWM_US_BUCKET_SIZE = 95/2 := by
      norm_num [INPUT_PWM_US_RANGE_MIN, INPUT_PWM_US_BUCKET_SIZE,
        INPUT_PWM_US_RANGE_SIZE, INPUT_PWM_US_RANGE_MAX,
        MASTER_LIGHT_CONFIGURATION_COUNT]
    unfold input_pwm_hi_us_to_config_id
    rw [h]
    have hf : ⌊(95/2 : ℚ)⌋ = 47 := by
      rw [Int.floor_eq_iff]
      norm_num
    rw [hf]
    rfl
  refine ⟨hid0, ?_, hid47, ?_, ?_, ?_, ?_, ?_, ?_, ?_⟩
  · unfold input_pwm_hi_us_to_master_lights_config
    rw [hid0]
    rfl
  · unfold input_pwm_hi_us_to_master_lights_config
    rw [hid47]
    rfl
  all_goals try (unfold input_pwm_hi_us_to_master_lights_config; rw [hid47]; rfl)
  intro curr_us
  exact ⟨rfl, rfl, rfl, rfl, rfl, rfl⟩

/-- C10: starting from the all-off state, for every sequence of apply
calls with arbitrary configuration bytes and clock values, the left and
right blinker channels are never in state `HI` — the rule engine only
ever turns them off, on, or leaves them alone. -/
theorem blinkers_never_hi (trace : List (Nat × Nat)) :
    (runApply allOffSysState trace).lights.left_blinkers.state ≠ LedState.HI ∧
    (runApply allOffSysState trace).lights.right_blinkers.state ≠ LedState.HI := by
  suffices h : ∀ s : SysState, s.lights.left_blinkers.state ≠ LedState.HI →
      s.lights.right_blinkers.state ≠ LedState.HI →
      (runApply s trace).lights.left_blinkers.state ≠ LedState.HI ∧
      (runApply s trace).lights.right_blinkers.state ≠ LedState.HI by
    exact h allOffSysState (by decide) (by decide)
  induction trace with
  | nil => exact fun s hl hr => ⟨hl, hr⟩
  | cons c rest ih =>
    intro s hl hr
    have hstep := apply_blink_preserves c.1 ((c.2 >>> 2) &&& 3) s.timer
      s.lights.left_blinkers s.lights.right_blinkers hl hr
    exact ih (apply_master_lights_config c.1 c.2 s) hstep.1 hstep.2

end RCLights
